import Mathlib

/-!
Shallow embedding of the StatsMonit aggregation core (`lib/stats.js`).

Conventions of the embedding:
* JS numbers (byte counts, percentages, rates) are modelled as `ℚ`;
  millisecond clock readings (`Date.now()`, ISO timestamps) as `Int`.
* Asynchronous adapter calls are modelled by their settled outcome: an
  `Option` (`none` = the adapter's failure/`!success` branch) or an
  `Except` where the underlying promise itself can reject.
* Module-scope mutable state (`cpuHistory`, `memoryHistory`,
  `networkHistory`, `lastNetworkStats`, `networkSpeedHistory`, `_cache`)
  becomes explicit state passed through and returned by each function.
* `toFixed(2)` / `toFixed(1)` string formatting is modelled by the exact
  rounded value in hundredths / tenths (an `Int`); the byte pretty-printer
  `formatBytes` is presentation-only and excluded, raw values are kept.
-/

namespace StatsMonit

/-- One entry of the module-level `_cache` table: `{ data, ts }`. -/
structure CacheEntry (α : Type) where
  data : α
  ts : Int
  deriving Repr, DecidableEq

/-- The freshness guard of `cachedCall` (line 123): `(now - _cache[key].ts) < ttlMs`. -/
def entryFresh {α : Type} (e : CacheEntry α) (ttlMs now : Int) : Bool :=
  now - e.ts < ttlMs

/-- `cachedCall(key, fn, ttlMs)` (lines 121-130), specialised to one fixed key:
the slot `entry` is `_cache[key]`, `producer` the settled outcome of `fn()`,
`now` the clock read at the start of the call.  Returns the call's outcome,
the new contents of the slot, and whether the producer was invoked
(`false` on a fresh hit).  A rejecting producer propagates its rejection and
leaves the slot untouched (the `.then` that stores is skipped). -/
def cachedCall {α : Type} (entry : Option (CacheEntry α))
    (producer : Except String α) (ttlMs now : Int) :
    Except String α × Option (CacheEntry α) × Bool :=
  match entry with
  | some e =>
    if entryFresh e ttlMs now then (Except.ok e.data, some e, false)
    else
      match producer with
      | Except.ok d => (Except.ok d, some ⟨d, now⟩, true)
      | Except.error err => (Except.error err, some e, true)
  | none =>
    match producer with
    | Except.ok d => (Except.ok d, some ⟨d, now⟩, true)
    | Except.error err => (Except.error err, none, true)

/-- `const historyLimit = 20` (line 17). -/
def historyLimit : Nat := 20

/-- One append to a bounded history buffer: `hist.push(x)` followed by
`if (hist.length > historyLimit) hist.shift()` (lines 70-71, 288-292). -/
def histPush {α : Type} (h : List α) (x : α) : List α :=
  let h2 := h ++ [x]
  if h2.length > historyLimit then h2.tail else h2

/-- One network interface as returned by `osutils.network.statsAsync()`:
`rxBytes`/`txBytes` are `DataSize` objects or absent (the code guards
`iface.rxBytes ? iface.rxBytes.toBytes() : 0`); we keep the byte value. -/
structure Iface where
  interface : String
  rxBytes : Option ℚ
  txBytes : Option ℚ
  deriving Repr, DecidableEq

/-- Total received bytes over all interfaces (lines 186-189 / 53-57). -/
def sumRx (data : List Iface) : ℚ :=
  (data.map (fun i => i.rxBytes.getD 0)).sum

/-- Total transmitted bytes over all interfaces (lines 186-189 / 53-57). -/
def sumTx (data : List Iface) : ℚ :=
  (data.map (fun i => i.txBytes.getD 0)).sum

/-- One element of `networkSpeedHistory` (lines 196-200). -/
structure RateSample where
  download : ℚ
  upload : ℚ
  timestamp : Int
  deriving Repr, DecidableEq

/-- The value returned by `getNetworkSpeed` (raw fields; the formatted
strings are `formatBytes` presentation of the same numbers). -/
structure SpeedResult where
  downloadRaw : ℚ
  uploadRaw : ℚ
  deriving Repr, DecidableEq

/-- `getNetworkSpeed()` (lines 176-223).  Inputs: the module state
(`lastNetworkStats`, `networkSpeedHistory`), the settled outcome of
`osutils.network.statsAsync()` (`none` = rejection or `!result.success`),
and `Date.now()` for the pushed sample.  Output: the returned speeds and
the two updated state cells. -/
def getNetworkSpeed (last : Option (ℚ × ℚ)) (hist : List RateSample)
    (res : Option (List Iface)) (now : Int) :
    SpeedResult × Option (ℚ × ℚ) × List RateSample :=
  match res with
  | none => (⟨0, 0⟩, last, hist)
  | some data =>
    if data.length = 0 then (⟨0, 0⟩, last, hist)
    else
      let totalRx := sumRx data
      let totalTx := sumTx data
      match last with
      | some l =>
        let timeDiff : ℚ := 1
        let downloadSpeed := (totalRx - l.1) / timeDiff
        let uploadSpeed := (totalTx - l.2) / timeDiff
        let hist2 := hist ++ [⟨max 0 downloadSpeed, max 0 uploadSpeed, now⟩]
        let hist3 := if hist2.length > 5 then hist2.tail else hist2
        let avgDownload := (hist3.map RateSample.download).sum / (hist3.length : ℚ)
        let avgUpload := (hist3.map RateSample.upload).sum / (hist3.length : ℚ)
        (⟨avgDownload, avgUpload⟩, some (totalRx, totalTx), hist3)
      | none => (⟨0, 0⟩, some (totalRx, totalTx), hist)

/-- One sample of `networkHistory` (line 70): `{ timestamp, input, output }`. -/
structure NetSample where
  timestamp : Int
  input : ℚ
  output : ℚ
  deriving Repr, DecidableEq

/-- One per-interface record of the `network` snapshot field (lines 59-66);
the `formatBytes` string fields carry the same numbers, we keep the raw ones. -/
structure NetIfaceEntry where
  interface : String
  rawInputBytes : ℚ
  rawOutputBytes : ℚ
  deriving Repr, DecidableEq

/-- `getNetworkStats()` (lines 43-74): on `!result.success` returns `[]`
without touching `networkHistory`; on success maps the interfaces, then
pushes `{timestamp, input: totalInput, output: totalOutput}` onto
`networkHistory` (bounded by `historyLimit`).  `tNet` is the
`new Date().toISOString()` clock read inside this adapter (line 69). -/
def getNetworkStats (res : Option (List Iface)) (hist : List NetSample)
    (tNet : Int) : List NetIfaceEntry × List NetSample :=
  match res with
  | none => ([], hist)
  | some data =>
    let interfaces := data.map (fun i =>
      ⟨i.interface, i.rxBytes.getD 0, i.txBytes.getD 0⟩)
    (interfaces, histPush hist ⟨tNet, sumRx data, sumTx data⟩)

/-- The exact value of JS `x.toFixed(2)` as an integer number of hundredths
(round half away from zero; all values formatted in this code are
non-negative, where that is round half up). -/
def toFixed2 (q : ℚ) : Int :=
  ⌊q * 100 + 1 / 2⌋

/-- The exact value of JS `x.toFixed(1)` as an integer number of tenths. -/
def toFixed1 (q : ℚ) : Int :=
  ⌊q * 10 + 1 / 2⌋

/-- `getTemperatureInfo()` (lines 76-90): `main` is the validated
`tempData.main` (`none` = rejection, missing data, non-number or NaN); a
valid reading is formatted with `toFixed(1)`. -/
def getTemperatureInfo (main : Option ℚ) : Option Int :=
  main.map toFixed1

/-- The success payload of `osutils.process.stats()` (lines 107-114). -/
structure ProcData where
  total : ℚ
  running : ℚ
  stopped : Option ℚ
  sleeping : Option ℚ
  deriving Repr, DecidableEq

/-- The `process_count` snapshot field. -/
structure ProcessCount where
  all : ℚ
  running : ℚ
  blocked : ℚ
  sleeping : ℚ
  deriving Repr, DecidableEq

/-- `getProcessCount()` (lines 106-117): all-zero record on `!success`. -/
def getProcessCount (res : Option ProcData) : ProcessCount :=
  match res with
  | some d => ⟨d.total, d.running, d.stopped.getD 0, d.sleeping.getD 0⟩
  | none => ⟨0, 0, 0, 0⟩

/-- The raw `si.battery()` payload (lines 227-235); optional fields model
the `|| 0` guards. -/
structure BatteryRaw where
  hasBattery : Bool
  percent : Option ℚ
  isCharging : Bool
  timeRemaining : Option ℚ
  voltage : Option ℚ
  cycleCount : Option ℚ
  deriving Repr, DecidableEq

/-- The `battery_status` snapshot field. -/
structure BatteryRecord where
  level : ℚ
  isCharging : Bool
  timeLeft : ℚ
  voltage : ℚ
  cycleCount : ℚ
  deriving Repr, DecidableEq

/-- `getBatteryStatus()` (lines 225-242): `none` input = rejection of
`si.battery()`; `null` is returned without a battery or on error.
`isCharging` is `(battery.isCharging || !battery.timeRemaining) || false`,
where `!timeRemaining` is JS falsiness (absent or zero). -/
def getBatteryStatus (res : Option BatteryRaw) : Option BatteryRecord :=
  match res with
  | none => none
  | some b =>
    if b.hasBattery then
      some ⟨b.percent.getD 0,
            b.isCharging || (match b.timeRemaining with
                             | none => true
                             | some q => decide (q = 0)),
            b.timeRemaining.getD 0, b.voltage.getD 0, b.cycleCount.getD 0⟩
    else none

/-- One element of the raw `si.fsSize()` payload (lines 136-143). -/
structure FsRaw where
  type : Option String
  mount : Option String
  size : Option ℚ
  used : Option ℚ
  use : Option ℚ
  deriving Repr, DecidableEq

/-- One element of the `file_system_info` snapshot field. -/
structure FsRecord where
  type : String
  mount : String
  rawSize : ℚ
  rawUsed : ℚ
  rawAvailable : ℚ
  usedPercentTenths : Option Int
  deriving Repr, DecidableEq

/-- The per-entry mapping of `getFileSystemInfo` (lines 136-143):
`available = (fs.size || 0) - (fs.used || 0)`, `usedPercent` is
`fs.use.toFixed(1)` when `fs.use != null`, else the `N/A` marker (`none`). -/
def fsRecordOf (r : FsRaw) : FsRecord :=
  ⟨r.type.getD "Unknown", r.mount.getD "Unknown", r.size.getD 0, r.used.getD 0,
   r.size.getD 0 - r.used.getD 0, r.use.map toFixed1⟩

/-- `getFileSystemInfo()` (lines 132-150): `si.fsSize()` behind
`cachedCall('fsSize', ..., 10000)`; a rejection (of the producer, hence of
the cached call) is caught and yields `[]`; an empty or missing list also
yields `[]`.  Returns the field value and the updated cache slot. -/
def getFileSystemInfo (cache : Option (CacheEntry (List FsRaw)))
    (producer : Except String (List FsRaw)) (now : Int) :
    List FsRecord × Option (CacheEntry (List FsRaw)) :=
  let r := cachedCall cache producer 10000 now
  match r.1 with
  | Except.ok l => (if l.length > 0 then l.map fsRecordOf else [], r.2.1)
  | Except.error _ => ([], r.2.1)

/-- One element of the raw `si.diskLayout()` payload (lines 156-164). -/
structure DiskRaw where
  name : Option String
  vendor : Option String
  type : Option String
  size : Option ℚ
  interfaceType : Option String
  serialNum : Option String
  firmwareRevision : Option String
  deriving Repr, DecidableEq

/-- One element of the `disk_layout` snapshot field. -/
structure DiskLayoutRecord where
  name : String
  vendor : String
  type : String
  rawSize : ℚ
  interfaceType : String
  serialNum : String
  firmwareRevision : String
  deriving Repr, DecidableEq

/-- The per-entry mapping of `getDiskLayout` (lines 156-164). -/
def diskLayoutRecordOf (d : DiskRaw) : DiskLayoutRecord :=
  ⟨d.name.getD "Unknown", d.vendor.getD "", d.type.getD "Unknown",
   d.size.getD 0, d.interfaceType.getD "Unknown", d.serialNum.getD "",
   d.firmwareRevision.getD ""⟩

/-- `getDiskLayout()` (lines 152-171): `si.diskLayout()` behind
`cachedCall('diskLayout', ..., 30000)`; rejection or an empty list yields `[]`. -/
def getDiskLayout (cache : Option (CacheEntry (List DiskRaw)))
    (producer : Except String (List DiskRaw)) (now : Int) :
    List DiskLayoutRecord × Option (CacheEntry (List DiskRaw)) :=
  let r := cachedCall cache producer 30000 now
  match r.1 with
  | Except.ok l => (if l.length > 0 then l.map diskLayoutRecordOf else [], r.2.1)
  | Except.error _ => ([], r.2.1)

/-- The success payload of `osutils.disk.usageByMountPoint` (lines 24-26). -/
structure DiskData where
  total : ℚ
  used : ℚ
  available : ℚ
  usagePercentage : ℚ
  deriving Repr, DecidableEq

/-- The `disk` snapshot field (lines 27-34). -/
structure DiskRecord where
  path : String
  rawTotal : ℚ
  rawUsed : ℚ
  rawAvailable : ℚ
  usedPercentHundredths : Int
  deriving Repr, DecidableEq

/-- `getDiskStats("/")` (lines 22-41): `null` on failure or rejection. -/
def getDiskStats (res : Option DiskData) : Option DiskRecord :=
  res.map (fun d =>
    ⟨"/", d.total, d.used, d.available, toFixed2 d.usagePercentage⟩)

/-- The success payload of `osutils.memory.info()` (lines 276-278): the
adapter reports `total`, `used` and its own `usagePercentage`. -/
structure MemData where
  total : ℚ
  used : ℚ
  usagePercentage : ℚ
  deriving Repr, DecidableEq

/-- The success payload of `osutils.cpu.info()` (lines 281-282). -/
structure CpuData where
  model : String
  cores : ℚ
  deriving Repr, DecidableEq

/-- The `process.memoryUsage()` reading (lines 93-103); `arrayBuffers`
may be absent (`memoryUsage.arrayBuffers || 0`). -/
structure HeapData where
  rss : ℚ
  heapTotal : ℚ
  heapUsed : ℚ
  external : ℚ
  arrayBuffers : Option ℚ
  deriving Repr, DecidableEq

/-- The `heap` snapshot field. -/
structure HeapRecord where
  rawRss : ℚ
  rawHeapTotal : ℚ
  rawHeapUsed : ℚ
  rawExternal : ℚ
  rawArrayBuffers : ℚ
  heapUsedPercentHundredths : Int
  deriving Repr, DecidableEq

/-- `getHeapStats()` (lines 92-104); never fails (reads the process's own
memory accounting). -/
def getHeapStats (h : HeapData) : HeapRecord :=
  ⟨h.rss, h.heapTotal, h.heapUsed, h.external, h.arrayBuffers.getD 0,
   toFixed2 (h.heapUsed / h.heapTotal * 100)⟩

/-- `getSystemTime()` (lines 244-252): wall-clock strings, passed through
from the environment. -/
structure SystemTimeRecord where
  time : String
  date : String
  timezone : String
  timestamp : String
  deriving Repr, DecidableEq

/-- One sample of `cpuHistory` (line 288). -/
structure CpuSample where
  timestamp : Int
  usage : ℚ
  deriving Repr, DecidableEq

/-- One sample of `memoryHistory` (line 289): `usage` is
`parseFloat(usedMemPercent)`, the 2-decimal rounded percentage. -/
structure MemSample where
  timestamp : Int
  usage : ℚ
  used : ℚ
  total : ℚ
  deriving Repr, DecidableEq

/-- The settled outcomes of the twelve concurrent adapter calls of one
aggregation pass (lines 256-274), plus the host-process readings the pass
takes synchronously.  `none` models the adapter's failure branch
(`!success`, rejection caught inside the adapter, invalid data);
`Except.error` models a rejecting promise handed to `cachedCall`.
`netStatsRes` and `netSpeedRes` are two separate
`osutils.network.statsAsync()` calls and may differ. -/
structure Outcomes where
  memRes : Option MemData
  cpuUsageRes : Option ℚ
  cpuInfoRes : Option CpuData
  diskRes : Option DiskData
  netStatsRes : Option (List Iface)
  tempRes : Option ℚ
  heapRes : HeapData
  procRes : Option ProcData
  fsSizeRes : Except String (List FsRaw)
  netSpeedRes : Option (List Iface)
  batteryRes : Option BatteryRaw
  diskLayoutRes : Except String (List DiskRaw)
  deriving Repr

/-- The ambient environment of one pass: the distinct clock readings taken
by the code, and the `os` module values read synchronously. -/
structure Env where
  tFs : Int
  tDisk : Int
  tBat : Int
  tNet : Int
  tSpeed : Int
  tFin : Int
  uptime : ℚ
  platform : String
  architecture : String
  hostname : String
  loadAverage : List ℚ
  osCpuModel : Option String
  osCpuCount : ℚ
  systemTime : SystemTimeRecord
  deriving Repr, DecidableEq

/-- The module-scope mutable state (lines 17-20, 120, 173-174), with the
`_cache` table split into its three used keys. -/
structure AggState where
  cpuHistory : List CpuSample
  memoryHistory : List MemSample
  networkHistory : List NetSample
  lastNetworkStats : Option (ℚ × ℚ)
  networkSpeedHistory : List RateSample
  fsCache : Option (CacheEntry (List FsRaw))
  diskLayoutCache : Option (CacheEntry (List DiskRaw))
  batteryCache : Option (CacheEntry (Option BatteryRecord))
  deriving Repr, DecidableEq

/-- The `ram_text` snapshot field, kept as its three raw constituents
(`usedMem`, `totalMem`, `usedMemPercent` in hundredths). -/
structure RamText where
  used : ℚ
  total : ℚ
  percentHundredths : Int
  deriving Repr, DecidableEq

/-- The record returned by `getStats()` (lines 294-318); percent strings
are kept as exact hundredths, `formatBytes` strings as raw byte values. -/
structure Snapshot where
  cpu : Int
  cpu_name : String
  ram : Int
  uptime : ℚ
  ram_text : RamText
  platform : String
  architecture : String
  cpu_cores : ℚ
  hostname : String
  load_average : List ℚ
  temperature : Option Int
  disk : Option DiskRecord
  network : List NetIfaceEntry
  cpu_history : List CpuSample
  memory_history : List MemSample
  network_history : List NetSample
  heap : HeapRecord
  process_count : ProcessCount
  file_system_info : List FsRecord
  network_speed : SpeedResult
  battery_status : Option BatteryRecord
  system_time : SystemTimeRecord
  disk_layout : List DiskLayoutRecord
  deriving Repr, DecidableEq

/-- `getStats()` (lines 254-319), as a total state-passing function: given
the settled adapter outcomes, the environment and the module state, it
always produces a fully-shaped `Snapshot` and the new module state.  The
`Promise.all` fan-out touches disjoint state cells, so the sequential
threading below reproduces the final state of the pass exactly; the
`await` barrier means the `cpuHistory`/`memoryHistory` pushes (lines
287-292) happen after every adapter has settled, while the
`networkHistory` push happens inside `getNetworkStats` itself. -/
def getStats (o : Outcomes) (env : Env) (st : AggState) :
    Snapshot × AggState :=
  let net := getNetworkStats o.netStatsRes st.networkHistory env.tNet
  let speed := getNetworkSpeed st.lastNetworkStats st.networkSpeedHistory
    o.netSpeedRes env.tSpeed
  let fsi := getFileSystemInfo st.fsCache o.fsSizeRes env.tFs
  let dl := getDiskLayout st.diskLayoutCache o.diskLayoutRes env.tDisk
  let bat := cachedCall st.batteryCache
    (Except.ok (getBatteryStatus o.batteryRes)) 10000 env.tBat
  let batteryStatus := match bat.1 with
    | Except.ok b => b
    | Except.error _ => none
  let totalMem := match o.memRes with
    | some m => m.total
    | none => 0
  let usedMem := match o.memRes with
    | some m => m.used
    | none => 0
  let usedMemPercentH : Int := match o.memRes with
    | some m => toFixed2 m.usagePercentage
    | none => 0
  let cpuUsage := match o.cpuUsageRes with
    | some u => u
    | none => 0
  let cpuName := match o.cpuInfoRes with
    | some c => c.model
    | none => env.osCpuModel.getD "Unknown"
  let cpuCores : ℚ := match o.cpuInfoRes with
    | some c => c.cores
    | none => env.osCpuCount
  let cpuHist := histPush st.cpuHistory ⟨env.tFin, cpuUsage⟩
  let memHist := histPush st.memoryHistory
    ⟨env.tFin, (usedMemPercentH : ℚ) / 100, usedMem, totalMem⟩
  (⟨toFixed2 cpuUsage, cpuName, usedMemPercentH, env.uptime,
    ⟨usedMem, totalMem, usedMemPercentH⟩, env.platform, env.architecture,
    cpuCores, env.hostname, env.loadAverage, getTemperatureInfo o.tempRes,
    getDiskStats o.diskRes, net.1, cpuHist, memHist, net.2,
    getHeapStats o.heapRes, getProcessCount o.procRes, fsi.1, speed.1,
    batteryStatus, env.systemTime, dl.1⟩,
   ⟨cpuHist, memHist, net.2, speed.2.1, speed.2.2, fsi.2, dl.2, bat.2.1⟩)

/-- A concrete environment for instantiating the snapshot theorems. -/
def envZero : Env :=
  ⟨0, 0, 0, 0, 0, 0, 0, "linux", "x64", "host", [], none, 0, ⟨"", "", "", ""⟩⟩

/-- The empty module state at process start (lines 17-20, 120, 173-174). -/
def stEmpty : AggState := ⟨[], [], [], none, [], none, none, none⟩

/-- Outcomes of a pass in which every fallible source fails. -/
def oAllFailed : Outcomes :=
  ⟨none, none, none, none, none, none, ⟨0, 0, 0, 0, none⟩, none,
   Except.error "fail", none, none, Except.error "fail"⟩

/-- Outcomes of a pass in which only the network-stats source succeeds,
with a single interface. -/
def oNetOk : Outcomes :=
  { oAllFailed with netStatsRes := some [⟨"eth0", some 700, some 300⟩] }

/-- Outcomes of a pass whose memory adapter reports a `usagePercentage`
inconsistent with its own `used`/`total` bytes. -/
def oMemOdd : Outcomes :=
  { oAllFailed with memRes := some ⟨100, 0, 50⟩ }

/-- The clamped per-tick rate sample pushed on a non-cold-start update
(spec side: `max(0, current - previous)` for each direction). -/
def rawSample (prx ptx : ℚ) (data : List Iface) (now : Int) : RateSample :=
  ⟨max 0 (sumRx data - prx), max 0 (sumTx data - ptx), now⟩

/-- The ring-buffer contents after pushing `s` onto `hist` at capacity 5
(spec side: exactly the most recent `min(k+1, 5)` samples, oldest first). -/
def ringKeep (hist : List RateSample) (s : RateSample) : List RateSample :=
  (hist ++ [s]).drop (hist.length + 1 - 5)

/-- The arithmetic mean of the download components of a sample list. -/
def avgDownload (l : List RateSample) : ℚ :=
  (l.map RateSample.download).sum / (l.length : ℚ)

/-- The arithmetic mean of the upload components of a sample list. -/
def avgUpload (l : List RateSample) : ℚ :=
  (l.map RateSample.upload).sum / (l.length : ℚ)

/-! ## Theorems -/

/-- Pushing onto a bounded buffer and shifting the head once over capacity
keeps exactly the most recent elements: the push-then-trim step equals a
`drop` of the oldest overflow element. -/
theorem pushTrim_eq_drop {α : Type} (h : List α) (x : α) (cap : Nat)
    (hcap : h.length ≤ cap) :
    (if (h ++ [x]).length > cap then (h ++ [x]).tail else h ++ [x]) =
      (h ++ [x]).drop (h.length + 1 - cap) := by
  have hlen : (h ++ [x]).length = h.length + 1 := by simp
  by_cases hgt : (h ++ [x]).length > cap
  · have h1 : h.length + 1 - cap = 1 := by omega
    rw [if_pos hgt, h1, List.drop_one]
  · have h0 : h.length + 1 - cap = 0 := by omega
    rw [if_neg hgt, h0, List.drop_zero]

/-- Folding `histPush` from a state that already keeps only the newest
`historyLimit` elements continues to keep exactly the newest elements. -/
theorem foldl_histPush_drop {α : Type} (xs : List α) :
    ∀ ys : List α,
      List.foldl histPush (ys.drop (ys.length - historyLimit)) xs =
        (ys ++ xs).drop ((ys ++ xs).length - historyLimit) := by
  induction xs with
  | nil => intro ys; simp
  | cons x xs ih =>
    intro ys
    rw [List.foldl_cons]
    have hdrop : (ys.drop (ys.length - historyLimit)).length =
        ys.length - (ys.length - historyLimit) := List.length_drop _ _
    have hstep : histPush (ys.drop (ys.length - historyLimit)) x =
        (ys ++ [x]).drop ((ys ++ [x]).length - historyLimit) := by
      simp only [histPush]
      rw [pushTrim_eq_drop _ _ _ (by omega)]
      rw [← List.drop_append_of_le_length (by omega), List.drop_drop]
      congr 1
      simp only [List.length_append, List.length_singleton]
      omega
    rw [hstep, ih (ys ++ [x])]
    simp [List.append_assoc]

/-- C3: for every sequence of `N ≥ 0` appends to a history buffer of
capacity `historyLimit = 20` starting empty, the resulting view has length
`min N 20` and contains exactly the most recent `min N 20` samples in
chronological order (oldest first): it is the input sequence with its
oldest overflow elements dropped, so the oldest sample is always the one
evicted. -/
theorem histPush_history_bound {α : Type} (xs : List α) :
    (List.foldl histPush [] xs).length = min xs.length historyLimit ∧
    List.foldl histPush [] xs = xs.drop (xs.length - historyLimit) := by
  have h := foldl_histPush_drop xs []
  simp only [List.drop_nil, List.length_nil, Nat.zero_sub, List.nil_append] at h
  refine ⟨?_, h⟩
  rw [h, List.length_drop]
  omega

/-- C6: on every non-cold-start update with a non-empty interface list,
the raw per-tick rates are clamped to `max 0 (current - previous)` (never
negative), the clamped sample is pushed into a FIFO ring of capacity 5
(evicting the oldest at capacity: the new ring is exactly the most recent
`min (k+1) 5` samples), and the returned rates are the arithmetic means of
the download and upload components over all samples now in the ring. -/
theorem getNetworkSpeed_update (prx ptx : ℚ) (hist : List RateSample)
    (data : List Iface) (now : Int) (hne : data ≠ [])
    (hcap : hist.length ≤ 5) :
    getNetworkSpeed (some (prx, ptx)) hist (some data) now =
      (⟨avgDownload (ringKeep hist (rawSample prx ptx data now)),
        avgUpload (ringKeep hist (rawSample prx ptx data now))⟩,
       some (sumRx data, sumTx data),
       ringKeep hist (rawSample prx ptx data now)) ∧
    (ringKeep hist (rawSample prx ptx data now)).length =
      min (hist.length + 1) 5 ∧
    0 ≤ (rawSample prx ptx data now).download ∧
    0 ≤ (rawSample prx ptx data now).upload := by
  have hlen : (data.length = 0) = False := by
    simp [List.length_eq_zero, hne]
  refine ⟨?_, ?_, le_max_left 0 _, le_max_left 0 _⟩
  · have hsamp : (⟨max 0 ((sumRx data - prx) / 1),
        max 0 ((sumTx data - ptx) / 1), now⟩ : RateSample) =
        rawSample prx ptx data now := by
      simp [rawSample]
    simp only [getNetworkSpeed, hlen, if_false, hsamp]
    rw [pushTrim_eq_drop hist _ 5 hcap]
    rfl
  · rw [ringKeep, List.length_drop]
    simp only [List.length_append, List.length_singleton]
    omega

/-- C4: TTL cache freshness.  A call at `t0` that stores `v`, followed by a
call at any `t1` with `t1 - t0 < T`, returns the identical stored value
without invoking the producer and leaves the entry as it was; a call at any
`t2` with `t2 - t0 ≥ T` invokes the producer again and the old entry is
replaced by the fresh value (stale values are never served past expiry).
With `t1 = t0 + T - eps` and `t2 = t0 + T + eps`, `0 < eps`, this is the
claim's statement. -/
theorem cachedCall_freshness {α : Type} (v w : α) (t0 T t1 t2 : Int)
    (h1 : t1 - t0 < T) (h2 : T ≤ t2 - t0) (p : Except String α) :
    cachedCall (α := α) none (Except.ok v) T t0 =
      (Except.ok v, some ⟨v, t0⟩, true) ∧
    cachedCall (some ⟨v, t0⟩) p T t1 =
      (Except.ok v, some (⟨v, t0⟩ : CacheEntry α), false) ∧
    cachedCall (some ⟨v, t0⟩) (Except.ok w) T t2 =
      (Except.ok w, some ⟨w, t2⟩, true) := by
  refine ⟨rfl, ?_, ?_⟩
  · have hf : entryFresh (⟨v, t0⟩ : CacheEntry α) T t1 = true := by
      simp only [entryFresh, decide_eq_true_eq]
      omega
    simp [cachedCall, hf]
  · have hf : entryFresh (⟨v, t0⟩ : CacheEntry α) T t2 = false := by
      simp only [entryFresh, decide_eq_false_iff_not]
      omega
    simp [cachedCall, hf]

/-- Witness for C4 at `v = 1`, `w = 2`, `t0 = 0`, `T = 5000`,
`t1 = 4999`, `t2 = 5001`. -/
theorem cachedCall_freshness_witness :
    cachedCall (α := Nat) none (Except.ok 1) 5000 0 =
      (Except.ok 1, some ⟨1, 0⟩, true) ∧
    cachedCall (some ⟨1, 0⟩) (Except.ok 9) 5000 4999 =
      (Except.ok 1, some (⟨1, 0⟩ : CacheEntry Nat), false) ∧
    cachedCall (some ⟨1, 0⟩) (Except.ok 2) 5000 5001 =
      (Except.ok 2, some ⟨2, 5001⟩, true) :=
  cachedCall_freshness 1 2 0 5000 4999 5001 (by decide) (by decide)
    (Except.ok 9)

/-- C8: if the producer handed to `cachedCall` rejects on a miss (no entry,
or only a stale entry), the failure propagates unchanged to the caller and
the cache slot is not modified: nothing is stored and any prior entry is
left exactly as it was. -/
theorem cachedCall_producer_failure {α : Type}
    (entry : Option (CacheEntry α)) (ttlMs now : Int) (e : String)
    (hmiss : ∀ c, entry = some c → ¬ entryFresh c ttlMs now) :
    cachedCall entry (Except.error e) ttlMs now =
      (Except.error e, entry, true) := by
  match entry with
  | none => rfl
  | some c =>
    have hf : entryFresh c ttlMs now = false :=
      Bool.eq_false_iff.mpr (fun h => hmiss c rfl h)
    simp [cachedCall, hf]

/-- Witness for C8: stale entry `⟨7, 0⟩`, ttl 5000, call at 5000. -/
theorem cachedCall_producer_failure_witness :
    cachedCall (some (⟨7, 0⟩ : CacheEntry Nat)) (Except.error "x") 5000 5000 =
      (Except.error "x", some ⟨7, 0⟩, true) :=
  cachedCall_producer_failure (some ⟨7, 0⟩) 5000 5000 "x"
    (fun c hc => by cases hc; decide)

/-- C10: on every `cachedCall` miss, the stored entry's timestamp is the
clock value `now` read at the start of the call (line 122), before the
producer is invoked and awaited (line 127 stores that same `now`); hence a
value whose producer took `dur ≥ ttl` to resolve is already expired at the
moment it is stored (time `t0 + dur`), and the next call at that moment
invokes the producer again. -/
theorem cachedCall_stores_start_timestamp {α : Type}
    (entry : Option (CacheEntry α)) (v : α) (ttlMs t0 dur : Int)
    (hmiss : ∀ c, entry = some c → ¬ entryFresh c ttlMs t0)
    (hslow : ttlMs ≤ dur) (p : Except String α) :
    (cachedCall entry (Except.ok v) ttlMs t0).2.1 = some ⟨v, t0⟩ ∧
    ¬ entryFresh (⟨v, t0⟩ : CacheEntry α) ttlMs (t0 + dur) ∧
    (cachedCall (some ⟨v, t0⟩) p ttlMs (t0 + dur)).2.2 = true := by
  have hstale : entryFresh (⟨v, t0⟩ : CacheEntry α) ttlMs (t0 + dur) = false := by
    simp only [entryFresh, decide_eq_false_iff_not]
    omega
  refine ⟨?_, by simp [hstale], ?_⟩
  · match entry with
    | none => rfl
    | some c =>
      have hf : entryFresh c ttlMs t0 = false :=
        Bool.eq_false_iff.mpr (fun h => hmiss c rfl h)
      simp [cachedCall, hf]
  · match p with
    | Except.ok d => simp [cachedCall, hstale]
    | Except.error err => simp [cachedCall, hstale]

/-- Witness for C10: empty slot, `v = 5`, ttl 100, call start 0, producer
duration 100. -/
theorem cachedCall_stores_start_timestamp_witness :
    (cachedCall (α := Nat) none (Except.ok 5) 100 0).2.1 = some ⟨5, 0⟩ ∧
    ¬ entryFresh (⟨5, 0⟩ : CacheEntry Nat) 100 (0 + 100) ∧
    (cachedCall (some (⟨5, 0⟩ : CacheEntry Nat)) (Except.ok 6) 100
      (0 + 100)).2.2 = true :=
  cachedCall_stores_start_timestamp none 5 100 0 100
    (fun c hc => by cases hc) (by decide) (Except.ok 6)

/-- C7: if the network counters source fails (`none`) or reports zero
interfaces (`some []`), `getNetworkSpeed` returns the cold-start zero
result and leaves both `lastNetworkStats` and `networkSpeedHistory`
exactly unchanged. -/
theorem getNetworkSpeed_failure_frame (last : Option (ℚ × ℚ))
    (hist : List RateSample) (now : Int) :
    getNetworkSpeed last hist none now = (⟨0, 0⟩, last, hist) ∧
    getNetworkSpeed last hist (some []) now = (⟨0, 0⟩, last, hist) :=
  ⟨rfl, rfl⟩

/-- C5: the first rate-estimator update after construction (no prior
counters) returns zero rates regardless of the input counters, stores the
current totals, and leaves the ring buffer untouched; and the spec's
scenario: `update(1000, 500)` from the initial state returns `{0, 0}`,
then `update(3000, 1500)` one tick later returns the raw deltas
`{2000, 1000}` with ring buffer `[{2000, 1000}]` and average
`{2000, 1000}`. -/
theorem getNetworkSpeed_cold_start (hist : List RateSample)
    (data : List Iface) (now : Int) (hne : data ≠ []) :
    getNetworkSpeed none hist (some data) now =
      (⟨0, 0⟩, some (sumRx data, sumTx data), hist) ∧
    getNetworkSpeed none [] (some [⟨"eth0", some 1000, some 500⟩]) 0 =
      (⟨0, 0⟩, some (1000, 500), []) ∧
    getNetworkSpeed (some (1000, 500)) []
        (some [⟨"eth0", some 3000, some 1500⟩]) 1 =
      (⟨2000, 1000⟩, some (3000, 1500), [⟨2000, 1000, 1⟩]) := by
  refine ⟨?_, by norm_num [getNetworkSpeed, sumRx, sumTx],
    by norm_num [getNetworkSpeed, sumRx, sumTx]⟩
  have hlen : (data.length = 0) = False := by
    simp [List.length_eq_zero, hne]
  simp [getNetworkSpeed, hlen]

/-- Witness for C5 at a one-interface reading `(4, 5)`. -/
theorem getNetworkSpeed_cold_start_witness :
    getNetworkSpeed none [] (some [⟨"eth0", some 4, some 5⟩]) 0 =
      (⟨0, 0⟩, some (4, 5), []) := by
  have h := (getNetworkSpeed_cold_start [] [⟨"eth0", some 4, some 5⟩] 0
    (by decide)).1
  simpa [sumRx, sumTx] using h

/-- On a cache miss (empty or stale slot) with a resolving producer, the
value is returned and stored with the call-start clock. -/
theorem cachedCall_miss_ok {α : Type} (entry : Option (CacheEntry α))
    (d : α) (ttlMs now : Int)
    (hmiss : ∀ c, entry = some c → ¬ entryFresh c ttlMs now) :
    cachedCall entry (Except.ok d) ttlMs now =
      (Except.ok d, some ⟨d, now⟩, true) := by
  match entry with
  | none => rfl
  | some c =>
    have hf : entryFresh c ttlMs now = false :=
      Bool.eq_false_iff.mpr (fun h => hmiss c rfl h)
    simp [cachedCall, hf]

/-- On a cache miss with a rejecting producer, the rejection propagates and
the slot is untouched. -/
theorem cachedCall_miss_error {α : Type} (entry : Option (CacheEntry α))
    (e : String) (ttlMs now : Int)
    (hmiss : ∀ c, entry = some c → ¬ entryFresh c ttlMs now) :
    cachedCall entry (Except.error e) ttlMs now =
      (Except.error e, entry, true) := by
  match entry with
  | none => rfl
  | some c =>
    have hf : entryFresh c ttlMs now = false :=
      Bool.eq_false_iff.mpr (fun h => hmiss c rfl h)
    simp [cachedCall, hf]

/-- C1: `getStats` is a total function of the settled adapter outcomes —
every combination, including failure of every source, still yields a
fully-shaped `Snapshot` (the return type; there is no failing branch) —
and each failed metric's field equals its documented default exactly:
network interfaces `[]`, temperature `none`, process counts all-zero, disk
`none`, network speed zero rates, memory fields zero, battery `none`,
filesystem info `[]`, disk layout `[]`.  The three cache-wrapped sources
only consult their adapter on a cache miss, so their conjuncts carry the
miss condition under which the failing adapter outcome is what the pass
observes. -/
theorem getStats_default_substitution (o : Outcomes) (env : Env)
    (st : AggState) :
    (o.netStatsRes = none → (getStats o env st).1.network = []) ∧
    (o.tempRes = none → (getStats o env st).1.temperature = none) ∧
    (o.procRes = none → (getStats o env st).1.process_count = ⟨0, 0, 0, 0⟩) ∧
    (o.diskRes = none → (getStats o env st).1.disk = none) ∧
    (o.netSpeedRes = none → (getStats o env st).1.network_speed = ⟨0, 0⟩) ∧
    (o.memRes = none → (getStats o env st).1.ram = 0 ∧
      (getStats o env st).1.ram_text = ⟨0, 0, 0⟩) ∧
    (o.batteryRes = none →
      (∀ c, st.batteryCache = some c → ¬ entryFresh c 10000 env.tBat) →
      (getStats o env st).1.battery_status = none) ∧
    ((∃ e, o.fsSizeRes = Except.error e) →
      (∀ c, st.fsCache = some c → ¬ entryFresh c 10000 env.tFs) →
      (getStats o env st).1.file_system_info = []) ∧
    ((∃ e, o.diskLayoutRes = Except.error e) →
      (∀ c, st.diskLayoutCache = some c → ¬ entryFresh c 30000 env.tDisk) →
      (getStats o env st).1.disk_layout = []) := by
  refine ⟨?_, ?_, ?_, ?_, ?_, ?_, ?_, ?_, ?_⟩
  · intro h; simp [getStats, getNetworkStats, h]
  · intro h; simp [getStats, getTemperatureInfo, h]
  · intro h; simp [getStats, getProcessCount, h]
  · intro h; simp [getStats, getDiskStats, h]
  · intro h; simp [getStats, getNetworkSpeed, h]
  · intro h; constructor <;> simp [getStats, h]
  · intro h hmiss
    have hb : getBatteryStatus o.batteryRes = none := by
      rw [h]; rfl
    have hc := cachedCall_miss_ok st.batteryCache
      (getBatteryStatus o.batteryRes) 10000 env.tBat hmiss
    rw [hb] at hc
    simp [getStats, hb, hc]
  · rintro ⟨e, he⟩ hmiss
    have hc := cachedCall_miss_error st.fsCache e 10000 env.tFs hmiss
    simp [getStats, getFileSystemInfo, he, hc]
  · rintro ⟨e, he⟩ hmiss
    have hc := cachedCall_miss_error st.diskLayoutCache e 30000 env.tDisk hmiss
    simp [getStats, getDiskLayout, he, hc]

/-- Witness for C1: the total-failure pass from the initial state. -/
theorem getStats_default_substitution_witness :
    (getStats oAllFailed envZero stEmpty).1.network = [] ∧
    (getStats oAllFailed envZero stEmpty).1.temperature = none ∧
    (getStats oAllFailed envZero stEmpty).1.process_count = ⟨0, 0, 0, 0⟩ ∧
    (getStats oAllFailed envZero stEmpty).1.disk = none ∧
    (getStats oAllFailed envZero stEmpty).1.network_speed = ⟨0, 0⟩ ∧
    (getStats oAllFailed envZero stEmpty).1.ram = 0 ∧
    (getStats oAllFailed envZero stEmpty).1.battery_status = none ∧
    (getStats oAllFailed envZero stEmpty).1.file_system_info = [] ∧
    (getStats oAllFailed envZero stEmpty).1.disk_layout = [] := by
  have h := getStats_default_substitution oAllFailed envZero stEmpty
  exact ⟨h.1 rfl, h.2.1 rfl, h.2.2.1 rfl, h.2.2.2.1 rfl, h.2.2.2.2.1 rfl,
    (h.2.2.2.2.2.1 rfl).1,
    h.2.2.2.2.2.2.1 rfl (fun c hc => Option.noConfusion hc),
    h.2.2.2.2.2.2.2.1 ⟨"fail", rfl⟩ (fun c hc => Option.noConfusion hc),
    h.2.2.2.2.2.2.2.2 ⟨"fail", rfl⟩ (fun c hc => Option.noConfusion hc)⟩

/-- Counterexample to C2 as stated: in a pass whose network-stats source
fails, `networkHistory` receives no sample at all (the push at line 70 is
behind the early `return []` at line 47), so it is false that each of the
three buffers receives exactly one sample per pass. -/
theorem getStats_network_history_skipped_cex :
    (getStats oAllFailed envZero stEmpty).2.networkHistory = [] ∧
    ¬ ((getStats oAllFailed envZero stEmpty).2.networkHistory.length =
        stEmpty.networkHistory.length + 1) := by
  have h0 : (getStats oAllFailed envZero stEmpty).2.networkHistory = [] := rfl
  refine ⟨h0, ?_⟩
  rw [h0]
  simp [stEmpty]

/-- C2 amended: the CPU and memory history buffers are each appended
exactly once per pass, after the fan-in barrier, sharing the single
timestamp read at line 287; the network history buffer is appended inside
the network adapter itself, at that adapter's own resolution time, and
only when the network-stats source succeeds — a pass whose network source
fails appends nothing to it. -/
theorem getStats_history_appends (o : Outcomes) (env : Env)
    (st : AggState) :
    (∃ u, (getStats o env st).2.cpuHistory =
      histPush st.cpuHistory ⟨env.tFin, u⟩) ∧
    (∃ u ud t, (getStats o env st).2.memoryHistory =
      histPush st.memoryHistory ⟨env.tFin, u, ud, t⟩) ∧
    (∀ l, o.netStatsRes = some l →
      (getStats o env st).2.networkHistory =
        histPush st.networkHistory ⟨env.tNet, sumRx l, sumTx l⟩) ∧
    (o.netStatsRes = none →
      (getStats o env st).2.networkHistory = st.networkHistory) := by
  refine ⟨?_, ?_, ?_, ?_⟩
  · cases h : o.cpuUsageRes with
    | some u => exact ⟨u, by simp [getStats, h]⟩
    | none => exact ⟨0, by simp [getStats, h]⟩
  · cases h : o.memRes with
    | some m =>
      exact ⟨(toFixed2 m.usagePercentage : ℚ) / 100, m.used, m.total,
        by simp [getStats, h]⟩
    | none =>
      exact ⟨((0 : Int) : ℚ) / 100, 0, 0, by simp [getStats, h]⟩
  · intro l hl; simp [getStats, getNetworkStats, hl]
  · intro h; simp [getStats, getNetworkStats, h]

/-- Witness for C2 amended: a pass whose network source succeeds with one
interface appends its sample with the adapter-side timestamp. -/
theorem getStats_history_appends_witness :
    (∃ u, (getStats oNetOk envZero stEmpty).2.cpuHistory =
      histPush stEmpty.cpuHistory ⟨envZero.tFin, u⟩) ∧
    (getStats oNetOk envZero stEmpty).2.networkHistory =
      histPush stEmpty.networkHistory
        ⟨envZero.tNet, sumRx [⟨"eth0", some 700, some 300⟩],
         sumTx [⟨"eth0", some 700, some 300⟩]⟩ := by
  have h := getStats_history_appends oNetOk envZero stEmpty
  exact ⟨h.1, h.2.2.1 _ rfl⟩

/-- Counterexample to C9 as stated: a successful memory reading whose
adapter-reported `usagePercentage` (50) disagrees with its own `used`/
`total` bytes (0 of 100) yields `ram = 50.00%`, not
`used / total × 100 = 0.00%` — the code passes the adapter's percentage
through (line 278) instead of recomputing it. -/
theorem getStats_ram_not_recomputed_cex :
    (getStats oMemOdd envZero stEmpty).1.ram = 5000 ∧
    (getStats oMemOdd envZero stEmpty).1.ram_text.used = 0 ∧
    (getStats oMemOdd envZero stEmpty).1.ram_text.total = 100 ∧
    toFixed2 ((0 : ℚ) / 100 * 100) = 0 ∧
    (getStats oMemOdd envZero stEmpty).1.ram ≠
      toFixed2 ((getStats oMemOdd envZero stEmpty).1.ram_text.used /
        (getStats oMemOdd envZero stEmpty).1.ram_text.total * 100) := by
  have hram : (getStats oMemOdd envZero stEmpty).1.ram = 5000 := by
    norm_num [getStats, oMemOdd, oAllFailed, toFixed2]
  have hused : (getStats oMemOdd envZero stEmpty).1.ram_text.used = 0 := rfl
  have htot : (getStats oMemOdd envZero stEmpty).1.ram_text.total = 100 := rfl
  have hz : toFixed2 ((0 : ℚ) / 100 * 100) = 0 := by norm_num [toFixed2]
  refine ⟨hram, hused, htot, hz, ?_⟩
  rw [hram, hused, htot]
  norm_num [toFixed2]

/-- C9 amended: when the memory source succeeds, `ram` is the
adapter-reported `usagePercentage` formatted to 2 decimals — the same
rounded percentage that appears in `ram_text` next to the same `used` and
`total` byte values — and it is `0.00` exactly when the source fails; it
is not recomputed from `used`/`total`, so `total = 0` with a successful
reading does not force `0`. -/
theorem getStats_ram_from_adapter (o : Outcomes) (env : Env)
    (st : AggState) :
    (∀ m, o.memRes = some m →
      (getStats o env st).1.ram = toFixed2 m.usagePercentage ∧
      (getStats o env st).1.ram_text =
        ⟨m.used, m.total, toFixed2 m.usagePercentage⟩) ∧
    (o.memRes = none →
      (getStats o env st).1.ram = 0 ∧
      (getStats o env st).1.ram_text = ⟨0, 0, 0⟩) := by
  constructor
  · intro m hm
    constructor <;> simp [getStats, hm]
  · intro h
    constructor <;> simp [getStats, h]

/-- Witness for C9 amended at the inconsistent reading `⟨100, 0, 50⟩`. -/
theorem getStats_ram_from_adapter_witness :
    (getStats oMemOdd envZero stEmpty).1.ram = toFixed2 50 ∧
    (getStats oMemOdd envZero stEmpty).1.ram_text = ⟨0, 100, toFixed2 50⟩ :=
  (getStats_ram_from_adapter oMemOdd envZero stEmpty).1 ⟨100, 0, 50⟩ rfl

/-- Witness for C6 at the spec's second scenario tick. -/
theorem getNetworkSpeed_update_witness :
    getNetworkSpeed (some (1000, 500)) []
        (some [⟨"eth0", some 3000, some 1500⟩]) 1 =
      (⟨avgDownload (ringKeep []
          (rawSample 1000 500 [⟨"eth0", some 3000, some 1500⟩] 1)),
        avgUpload (ringKeep []
          (rawSample 1000 500 [⟨"eth0", some 3000, some 1500⟩] 1))⟩,
       some (sumRx [⟨"eth0", some 3000, some 1500⟩],
             sumTx [⟨"eth0", some 3000, some 1500⟩]),
       ringKeep [] (rawSample 1000 500 [⟨"eth0", some 3000, some 1500⟩] 1)) :=
  (getNetworkSpeed_update 1000 500 [] [⟨"eth0", some 3000, some 1500⟩] 1
    (List.cons_ne_nil _ _) (by decide)).1

end StatsMonit
